import Mathlib

/-!
Shallow embedding of the instance-registry service of
servicecomb-service-center (src/server/service/instance.go) together with
proofs about its Register, Heartbeat(-Set) and Find operations.

External collaborators that live outside src/ (the KV gateway, the key
schema generators, the quota plugin, serviceUtil helpers, pb constants)
are modelled from the spec where noted; everything else is translated
directly from src/server/service/instance.go.
-/

namespace SC

/-- Modelled from the spec (section 7 error taxonomy and server/error codes
used by instance.go): the distinct response codes. `otherErr` stands for
any further plugin-supplied error kind. -/
inductive Code where
  | success
  | invalidParams
  | serviceNotExists
  | instanceNotExists
  | internalErr
  | unavailableBackend
  | otherErr (tag : String)
  deriving DecidableEq

/-- A service-center error value: its code and its `internal?` flag
(spec section 7 propagation policy). -/
structure SCErr where
  code : Code
  isInternal : Bool
  deriving DecidableEq

/-- Two's-complement wrap-around of Go `int32` arithmetic. -/
def wrap32 (n : Int) : Int := (n + 2 ^ 31) % 2 ^ 32 - 2 ^ 31

/-- Modelled from the spec (section 4.3): registry default lease renewal
interval (the constant lives in server/core, outside src/). -/
def REGISTRY_DEFAULT_LEASE_RENEWALINTERVAL : Int := 30

/-- Modelled from the spec (section 4.3): registry default lease retry
times (the constant lives in server/core, outside src/). -/
def REGISTRY_DEFAULT_LEASE_RETRYTIMES : Int := 3

/-- Modelled from the spec (section 3): default instance status `UP`
(pb.MSI_UP, outside src/). -/
def MSI_UP : String := "UP"

/-- Health-check mode: pb.CHECK_BY_HEARTBEAT / pb.CHECK_BY_PLATFORM
(the only two modes treated by instance.go). -/
inductive HCMode where
  | heartbeat
  | platform
  deriving DecidableEq

/-- pb.HealthCheck: mode, interval (seconds, int32), retry times (int32). -/
structure HealthCheck where
  mode : HCMode
  interval : Int
  times : Int
  deriving DecidableEq

/-- The fields of pb.MicroService that instance.go reads. -/
structure Service where
  version : String
  environment : String
  appId : String
  serviceName : String
  aliasName : String
  deriving DecidableEq

/-- The fields of pb.MicroServiceInstance that instance.go manipulates. -/
structure Instance where
  instanceId : String
  serviceId : String
  hostName : String
  endpoints : List String
  status : String
  healthCheck : Option HealthCheck
  version : String
  timestamp : String
  modTimestamp : String
  deriving DecidableEq

/-- The request-context metadata consumed by instance.go (domain, project,
target domain/project, request revision). -/
structure Ctx where
  domain : String
  project : String
  targetDomainProject : String
  requestRev : String
  deriving DecidableEq

/-- util.ParseDomainProject: the caller tenant `domain/project`. -/
def parseDomainProject (ctx : Ctx) : String := ctx.domain ++ "/" ++ ctx.project

/-- A KV entry: value plus owning lease id. -/
structure KVEntry where
  value : String
  lease : Int
  deriving DecidableEq

/-- Modelled from the spec (section 4.2): hierarchical `/`-separated keys,
represented as segment lists. -/
abbrev KVKey := List String

/-- The transactional KV store, as an association list. -/
abbrev KV := List (KVKey × KVEntry)

def kvGet : KV → KVKey → Option KVEntry
  | [], _ => none
  | (k, e) :: rest, q => if k = q then some e else kvGet rest q

def kvPut : KV → KVKey → KVEntry → KV
  | [], q, e => [(q, e)]
  | (k, e0) :: rest, q, e => if k = q then (q, e) :: rest else (k, e0) :: kvPut rest q e

/-- Modelled from the spec (section 4.2): apt.GenerateServiceKey. -/
def serviceKeyOf (dp sid : String) : KVKey := ["service", dp, sid]

/-- Modelled from the spec (section 4.2): apt.GenerateInstanceKey. -/
def instanceKeyOf (dp sid iid : String) : KVKey := ["inst", dp, sid, iid]

/-- Modelled from the spec (section 4.2): apt.GenerateInstanceLeaseKey. -/
def instanceLeaseKeyOf (dp sid iid : String) : KVKey := ["lease", dp, sid, iid]

/-- Modelled from the spec (section 4.1): the etcd compare predicate
`CmpVer(key) NOT_EQUAL 0`, which holds exactly when the key exists. -/
def cmpVerNotZero (kv : KV) (k : KVKey) : Bool := (kvGet kv k).isSome

/-- registry.OpPut with a string key, a value and a lease. -/
structure PluginOp where
  key : KVKey
  value : String
  leaseId : Int
  deriving DecidableEq

/-- A TxnWithCmp request as issued by Register: a list of puts guarded by
one `version(cmpKey) NOT_EQUAL 0` compare. -/
structure TxnReq where
  ops : List PluginOp
  cmpKey : KVKey
  deriving DecidableEq

def applyOps : KV → List PluginOp → KV
  | kv, [] => kv
  | kv, op :: rest => applyOps (kvPut kv op.key ⟨op.value, op.leaseId⟩) rest

/-- Modelled from the spec (section 4.1): atomic compare-then-put
transaction; on a failed compare nothing is written. -/
def txnWithCmp (kv : KV) (t : TxnReq) : Bool × KV :=
  if cmpVerNotZero kv t.cmpKey then (true, applyOps kv t.ops) else (false, kv)

/-- The environment of one Register call: outcomes of the external
collaborators instance.go consults (validator, UUID plugin, clock,
serviceUtil lookups, quota plugin, marshaller, lease/txn backend). -/
structure RegisterEnv where
  validateErr : Option String := none
  instExistErr : Option SCErr := none
  uuid : String := ""
  nowSec : Int := 0
  isSCInstance : Bool := false
  serviceLookup : Option Service := none
  quotaErr : Option SCErr := none
  marshalFail : Bool := false
  leaseGrant : Option Int := none
  txnFail : Bool := false

/-- The registry state visible to Register: the KV store and the
endpoint index consulted by the pre-check. -/
structure RegState where
  kv : KV := []
  instances : List Instance := []
  deriving DecidableEq

/-- The externally visible side effects of one Register call. -/
structure Effects where
  quotaApplied : Bool := false
  leaseGranted : Option Int := none
  txn : Option TxnReq := none
  txnSucceeded : Option Bool := none
  leaseRevoked : Bool := false
  reportAttempted : Bool := false
  deriving DecidableEq

/-- The result of one Register call: response code/message/instance id,
the new state, the effect record, and whether a non-nil Go error was
returned alongside the response. -/
structure RegOut where
  code : Code
  msg : String := ""
  instanceId : String := ""
  st : RegState
  eff : Effects := {}
  retErr : Bool := false
  deriving DecidableEq

/-- Modelled from the spec (section 4.4 pre-check): serviceUtil.InstanceExist
(outside src/) returns the id of a live instance of the same service with
the same endpoints and host name, or the empty string. -/
def instanceExistByEndpoints : List Instance → Instance → String
  | [], _ => ""
  | i :: rest, q =>
      if i.serviceId = q.serviceId ∧ i.endpoints = q.endpoints ∧ i.hostName = q.hostName then
        i.instanceId
      else
        instanceExistByEndpoints rest q

/-- Modelled from the spec (section 6): the JSON encoding of the instance
record; the exact encoding is opaque to every claim. -/
def instJson (i : Instance) : String :=
  String.intercalate "|"
    ([i.instanceId, i.serviceId, i.hostName, i.status, i.version, i.timestamp,
      i.modTimestamp] ++ i.endpoints)

/-- The tail of preProcessRegisterInstance (instance.go lines 80-86):
read the owning service and copy its version; a missing service (or a
lookup error, which the source collapses into the same branch) yields
ServiceNotExists. -/
def preProcessServiceStep (env : RegisterEnv) (inst : Instance) : Instance × Option SCErr :=
  match env.serviceLookup with
  | none => (inst, some ⟨Code.serviceNotExists, false⟩)
  | some svc => ({ inst with version := svc.version }, none)

/-- instance.go lines 45-54: default the status to UP, fill the instance
id from the UUID plugin when absent, and stamp both timestamps. -/
def preProcessFill (env : RegisterEnv) (inst0 : Instance) : Instance :=
  let inst1 := if inst0.status.length = 0 then { inst0 with status := MSI_UP } else inst0
  let inst2 := if inst1.instanceId.length = 0 then { inst1 with instanceId := env.uuid } else inst1
  { inst2 with timestamp := toString env.nowSec, modTimestamp := toString env.nowSec }

/-- instance.go lines 44-87 (preProcessRegisterInstance): fill defaults,
normalise/validate the health check, then copy the service version. -/
def preProcessRegisterInstance (env : RegisterEnv) (inst0 : Instance) : Instance × Option SCErr :=
  let inst3 := preProcessFill env inst0
  match inst3.healthCheck with
  | none =>
      preProcessServiceStep env
        { inst3 with healthCheck := some ⟨HCMode.heartbeat, REGISTRY_DEFAULT_LEASE_RENEWALINTERVAL,
            REGISTRY_DEFAULT_LEASE_RETRYTIMES⟩ }
  | some hc =>
      match hc.mode with
      | HCMode.heartbeat =>
          let d := wrap32 (hc.interval * wrap32 (hc.times + 1))
          if d ≤ 0 ∨ 2 ^ 31 - 1 ≤ d then
            (inst3, some ⟨Code.invalidParams, false⟩)
          else
            preProcessServiceStep env inst3
      | HCMode.platform =>
          preProcessServiceStep env
            { inst3 with healthCheck := some ⟨HCMode.platform, REGISTRY_DEFAULT_LEASE_RENEWALINTERVAL,
                REGISTRY_DEFAULT_LEASE_RETRYTIMES⟩ }

/-- instance.go line 130: `ttl := int64(interval * (times + 1))` in int32
arithmetic (the health check is always present after preprocessing). -/
def ttlOf (inst : Instance) : Int :=
  match inst.healthCheck with
  | some hc => wrap32 (hc.interval * wrap32 (hc.times + 1))
  | none => 0

/-- instance.go lines 176-191: the request options built by Register.
Two puts under the granted lease - the instance key carrying the
JSON-encoded record and the sibling lease key carrying the printed lease
id - guarded by the compare `version(service key) NOT_EQUAL 0`. -/
def commitTxnOf (ctx : Ctx) (inst : Instance) (leaseId : Int) : TxnReq :=
  let dp := parseDomainProject ctx
  let key := instanceKeyOf dp inst.serviceId inst.instanceId
  let hbKey := instanceLeaseKeyOf dp inst.serviceId inst.instanceId
  ⟨[⟨key, instJson inst, leaseId⟩, ⟨hbKey, toString leaseId, leaseId⟩],
   serviceKeyOf dp inst.serviceId⟩

/-- instance.go lines 157-221: marshal, grant a lease, issue the
compare-and-put transaction, and report quota usage on success.
`qa` records whether a quota reservation was applied (line 137-155). -/
def registerCommit (env : RegisterEnv) (ctx : Ctx) (st : RegState) (inst : Instance)
    (qa : Bool) : RegOut :=
  let eff0 : Effects := { quotaApplied := qa }
  if env.marshalFail then
    { code := Code.internalErr, st := st, eff := eff0, retErr := true }
  else
    match env.leaseGrant with
    | none => { code := Code.unavailableBackend, st := st, eff := eff0, retErr := true }
    | some leaseId =>
        let t : TxnReq := commitTxnOf ctx inst leaseId
        let eff1 : Effects := { quotaApplied := qa, leaseGranted := some leaseId, txn := some t }
        if env.txnFail then
          { code := Code.unavailableBackend, st := st, eff := eff1, retErr := true }
        else
          match txnWithCmp st.kv t with
          | (true, kv2) =>
              { code := Code.success, msg := "Register service instance successfully.",
                instanceId := inst.instanceId, st := { st with kv := kv2 },
                eff := { eff1 with txnSucceeded := some true, reportAttempted := true } }
          | (false, _) =>
              { code := Code.serviceNotExists, msg := "Service does not exist.", st := st,
                eff := { eff1 with txnSucceeded := some false } }

/-- instance.go lines 89-221 (InstanceService.Register). -/
def register (env : RegisterEnv) (ctx : Ctx) (st : RegState) (inst0 : Instance) : RegOut :=
  match env.validateErr with
  | some m => { code := Code.invalidParams, msg := m, st := st }
  | none =>
    match env.instExistErr with
    | some e => { code := e.code, st := st, retErr := e.isInternal }
    | none =>
      let oldId := instanceExistByEndpoints st.instances inst0
      if 0 < oldId.length then
        { code := Code.success, msg := "instance already exists", instanceId := oldId, st := st }
      else
        match preProcessRegisterInstance env inst0 with
        | (_, some e) => { code := e.code, st := st, retErr := e.isInternal }
        | (inst, none) =>
            if env.isSCInstance then
              registerCommit env ctx st inst false
            else
              match env.quotaErr with
              | some e =>
                  { code := e.code, st := st, eff := { quotaApplied := true },
                    retErr := e.isInternal }
              | none => registerCommit env ctx st inst true

/-- Modelled from the spec (sections 4.8 and 7): quota reporting is
best-effort; ApplyQuotaResult.ReportUsedQuota (outside src/) is nil-safe,
so reporting on an absent reservation is a no-op returning no error. -/
def reportUsedQuota (reporter : Option (Unit → Option String)) : Option String :=
  match reporter with
  | none => none
  | some f => f ()

/-- One element of a HeartbeatSet request (pb.HeartbeatSetElement). -/
structure HbElem where
  serviceId : String
  instanceId : String
  deriving DecidableEq

/-- One per-element result record (pb.InstanceHbRst). -/
structure InstanceHbRst where
  serviceId : String
  instanceId : String
  errMessage : String
  deriving DecidableEq

/-- The HeartbeatSet response: top-level code plus per-element results. -/
structure HbSetOut where
  code : Code
  instances : List InstanceHbRst
  deriving DecidableEq

/-- The composite deduplication key of instance.go line 340:
`heartbeatElement.ServiceId + heartbeatElement.InstanceId`
(plain string concatenation). -/
def compositeKey (e : HbElem) : String := e.serviceId ++ e.instanceId

/-- The composite key of a result record. -/
def rstKeyOf (r : InstanceHbRst) : String := r.serviceId ++ r.instanceId

/-- instance.go lines 336-348: the dedup loop over the request elements,
driven by the `existFlag` map of already seen composite keys. Elements
whose composite key was already seen are dropped. -/
def dedupElems (seen : List String) : List HbElem → List HbElem
  | [] => []
  | e :: rest =>
      if compositeKey e ∈ seen then dedupElems seen rest
      else e :: dedupElems (compositeKey e :: seen) rest

/-- instance.go lines 326-394 (InstanceService.HeartbeatSet).
`hb serviceId instanceId` is the error message produced by
serviceUtil.HeartbeatUtil for that pair (outside src/; the empty string
means the renewal succeeded), as packaged by getHeartbeatFunc. The
concurrent fanout delivers exactly one result per deduplicated element;
it is modelled by mapping over the deduplicated list (the claims proved
here do not depend on result order). -/
def heartbeatSet (hb : String → String → String) (l : List HbElem) : HbSetOut :=
  if l.length = 0 then { code := Code.invalidParams, instances := [] }
  else
    let uniques := dedupElems [] l
    let rs := uniques.map fun e =>
      { serviceId := e.serviceId, instanceId := e.instanceId,
        errMessage := hb e.serviceId e.instanceId : InstanceHbRst }
    let failFlag := rs.any fun r => r.errMessage.length != 0
    let successFlag := rs.any fun r => r.errMessage.length == 0
    if !failFlag && successFlag then { code := Code.success, instances := rs }
    else { code := Code.instanceNotExists, instances := rs }

/-- pb.MicroServiceKey as built by Find. -/
structure MicroServiceKey where
  tenant : String
  environment : String
  appId : String
  serviceName : String
  aliasName : String
  version : String
  deriving DecidableEq

/-- cache.VersionRuleCacheItem: resolved provider service ids, the
instance list and the revision token. -/
structure CacheItem where
  serviceIds : List String
  instances : List Instance
  rev : String
  deriving DecidableEq

/-- pb.FindInstancesRequest (tags are opaque to the claims proved here). -/
structure FindReq where
  consumerServiceId : String := ""
  environment : String := ""
  appId : String := ""
  serviceName : String := ""
  versionRule : String := ""
  deriving DecidableEq

/-- The environment of one Find call: outcomes of validation, the
consumer lookup, the shared-service test against the registry
configuration, the cache, and the dependency-rule collaborators. -/
structure FindEnv where
  validateErr : Option String := none
  consumerLookup : Option (Option Service) := none
  isShared : MicroServiceKey → Bool := fun _ => false
  registryEnv : String := ""
  cacheGet : MicroServiceKey → Option (Option CacheItem) := fun _ => none
  existVersionRule : Bool := true
  reshapeLookup : Option Service := none
  addRuleErr : Bool := false

/-- The result of one Find call: response code, the instance payload, the
revision placed in the response context, the cache item that served the
call and the provider key handed to the cache lookup. -/
structure FindOut where
  code : Code
  instances : List Instance := []
  respRev : Option String := none
  item : Option CacheItem := none
  providerUsed : Option MicroServiceKey := none
  retErr : Bool := false
  deriving DecidableEq

/-- instance.go lines 516-534: resolve the consumer service. With an
empty ConsumerServiceId the service is just a shell carrying the request
environment; otherwise the lookup may fail internally or find nothing. -/
def consumerResolve (env : FindEnv) (req : FindReq) : Except (Code × Bool) Service :=
  if req.consumerServiceId.length = 0 then
    Except.ok { environment := req.environment, appId := "", serviceName := "",
                aliasName := "", version := "" }
  else
    match env.consumerLookup with
    | none => Except.error (Code.internalErr, true)
    | some none => Except.error (Code.serviceNotExists, false)
    | some (some s) => Except.ok s

/-- instance.go lines 537-544: the provider key as first assembled. -/
def buildProviderKey (ctx : Ctx) (req : FindReq) (service : Service) : MicroServiceKey :=
  { tenant := ctx.targetDomainProject, environment := service.environment,
    appId := req.appId, serviceName := req.serviceName, aliasName := req.serviceName,
    version := req.versionRule }

/-- instance.go lines 545-565: if the provider key is a configured shared
service (apt.IsShared, outside src/, abstracted into the environment) its
environment becomes the registry's own environment; otherwise the target
tenant of the context is reset to the caller's own domain/project and
becomes the provider tenant. -/
def resolveProvider (env : FindEnv) (ctx : Ctx) (p0 : MicroServiceKey) : MicroServiceKey × Ctx :=
  if env.isShared p0 then
    ({ p0 with environment := env.registryEnv }, ctx)
  else
    let ctx2 := { ctx with targetDomainProject := parseDomainProject ctx }
    ({ p0 with tenant := ctx2.targetDomainProject }, ctx2)

/-- Modelled from the spec (section 4.6 step 6): pb.MicroServiceToKey
(outside src/) rebuilds a key from a service record under a tenant. -/
def microServiceToKey (tenant : String) (s : Service) : MicroServiceKey :=
  { tenant := tenant, environment := s.environment, appId := s.appId,
    serviceName := s.serviceName, aliasName := s.aliasName, version := s.version }

/-- instance.go lines 659-670 (reshapeProviderKey): re-read the first
matched provider service (aliases resolve to the canonical name) and keep
the version rule; a missing service yields nothing. -/
def reshapeProviderKey (env : FindEnv) (provider : MicroServiceKey) : Option MicroServiceKey :=
  match env.reshapeLookup with
  | none => none
  | some ps =>
      let versionRule := provider.version
      some { microServiceToKey provider.tenant ps with version := versionRule }

/-- instance.go lines 607-616: the success tail of Find. The instance
payload is dropped when the caller revision matches the cache revision,
and the cache revision is placed in the response context. -/
def findFinish (rev : String) (provider : MicroServiceKey) (item : CacheItem) : FindOut :=
  let instances := if rev = item.rev then [] else item.instances
  { code := Code.success, instances := instances, respRev := some item.rev,
    item := some item, providerUsed := some provider }

/-- instance.go lines 505-617 (InstanceService.Find). -/
def find (env : FindEnv) (ctx : Ctx) (req : FindReq) : FindOut :=
  match env.validateErr with
  | some _ => { code := Code.invalidParams }
  | none =>
    match consumerResolve env req with
    | Except.error (c, r) => { code := c, retErr := r }
    | Except.ok service =>
      let p0 := buildProviderKey ctx req service
      let pc := resolveProvider env ctx p0
      let provider := pc.1
      let ctx2 := pc.2
      let rev := ctx2.requestRev
      match env.cacheGet provider with
      | none => { code := Code.internalErr, retErr := true, providerUsed := some provider }
      | some none => { code := Code.serviceNotExists, providerUsed := some provider }
      | some (some item) =>
          if 0 < req.consumerServiceId.length ∧ 0 < item.serviceIds.length ∧
              env.existVersionRule = false then
            match reshapeProviderKey env provider with
            | none => { code := Code.serviceNotExists, providerUsed := some provider }
            | some _ =>
                if env.addRuleErr then
                  { code := Code.internalErr, retErr := true, providerUsed := some provider }
                else
                  findFinish rev provider item
          else
            findFinish rev provider item

/-- Invariant 1 of the spec (section 3), at one (tenant, service,
instance) triple: the instance key and the sibling lease key are either
both present with the same lease id or both absent. -/
def pairedAt (kv : KV) (dp sid iid : String) : Prop :=
  match kvGet kv (instanceKeyOf dp sid iid), kvGet kv (instanceLeaseKeyOf dp sid iid) with
  | some a, some b => a.lease = b.lease
  | none, none => True
  | _, _ => False

/-- Invariant 1 of the spec (section 3) over the whole store. -/
def pairedInv (kv : KV) : Prop := ∀ dp sid iid, pairedAt kv dp sid iid

/-- What a Register run that built transaction `t` guarantees: the two
puts are the instance key and its sibling lease key under the granted
lease id, the compare is on the owning service key, the pairing
invariant is preserved, and a successful commit implies the service key
existed (had version NOT_EQUAL 0) in the pre-state. -/
def commitTxnSpec (st : RegState) (o : RegOut) (t : TxnReq) : Prop :=
  (∃ lid data dp sid iid,
      o.eff.leaseGranted = some lid ∧
      t.ops = [⟨instanceKeyOf dp sid iid, data, lid⟩,
               ⟨instanceLeaseKeyOf dp sid iid, toString lid, lid⟩] ∧
      t.cmpKey = serviceKeyOf dp sid) ∧
  (pairedInv st.kv → pairedInv o.st.kv) ∧
  (o.eff.txnSucceeded = some true → cmpVerNotZero st.kv t.cmpKey = true)

/-- Concrete fixture: a health check. -/
def hc0 : HealthCheck := ⟨HCMode.heartbeat, 30, 3⟩

/-- Concrete fixture: a service record. -/
def svc0 : Service :=
  { version := "1.0.0", environment := "prod", appId := "app", serviceName := "svc",
    aliasName := "svc" }

/-- Concrete fixture: a request context. -/
def ctx0 : Ctx :=
  { domain := "d", project := "p", targetDomainProject := "td/tp", requestRev := "r1" }

/-- Concrete fixture: an instance registration request. -/
def instFix : Instance :=
  { instanceId := "i1", serviceId := "s1", hostName := "h1", endpoints := ["http://h:9"],
    status := "UP", healthCheck := some hc0, version := "", timestamp := "",
    modTimestamp := "" }

/-- Concrete fixture: a benign Register environment. -/
def envOk : RegisterEnv := { serviceLookup := some svc0, uuid := "u1", leaseGrant := some 7 }

/-- Concrete fixture: a state whose KV holds the owning service key. -/
def stOk : RegState := { kv := [(serviceKeyOf "d/p" "s1", ⟨"svc", 0⟩)], instances := [] }

/-- Concrete fixture: the transaction Register builds from `envOk`,
`ctx0`, `stOk` and `instFix`. -/
def txnC1 : TxnReq :=
  commitTxnOf ctx0
    { instFix with version := "1.0.0", timestamp := "0", modTimestamp := "0" } 7

/-- Concrete fixture: a cache item. -/
def item0 : CacheItem := { serviceIds := ["ps1"], instances := [instFix], rev := "r1" }

/-- Concrete fixture: a benign Find environment. -/
def fenvOk : FindEnv :=
  { consumerLookup := some (some svc0), cacheGet := fun _ => some (some item0) }

/-- Concrete fixture: a Find request. -/
def freq0 : FindReq :=
  { consumerServiceId := "c1", environment := "e", appId := "app", serviceName := "svc",
    versionRule := "latest" }

/-- Concrete fixture: a state whose endpoint index already holds the
instance being registered. -/
def stReuse : RegState := { kv := [], instances := [instFix] }

/-- Concrete fixture: an empty registry state. -/
def stEmpty : RegState := {}

/-- Concrete fixture: a health check whose TTL product is out of range. -/
def hcBad : HealthCheck := ⟨HCMode.heartbeat, 0, 0⟩

/-- Concrete fixture: a registration carrying `hcBad`. -/
def instBad : Instance := { instFix with healthCheck := some hcBad }

/-- Concrete fixture: a PLATFORM-mode registration with non-default
caller-supplied interval and retry values. -/
def instPlat : Instance := { instFix with healthCheck := some ⟨HCMode.platform, 999, 888⟩ }

/-- Concrete fixture: a Find environment whose provider is shared. -/
def fenvShared : FindEnv :=
  { consumerLookup := some (some svc0), isShared := fun _ => true, registryEnv := "regenv",
    cacheGet := fun _ => some (some item0) }

/-- Concrete fixture: the provider key handed to the cache by the shared
Find fixture. -/
def pkShared : MicroServiceKey :=
  { tenant := "td/tp", environment := "regenv", appId := "app", serviceName := "svc",
    aliasName := "svc", version := "latest" }

lemma string_length_eq_zero (s : String) : s.length = 0 ↔ s = "" := by
  cases s with
  | mk data =>
    constructor
    · intro h
      have hd : data = [] := List.length_eq_zero.mp h
      subst hd
      rfl
    · intro h
      rw [h]
      decide

lemma kvGet_kvPut_self (kv : KV) (k : KVKey) (e : KVEntry) :
    kvGet (kvPut kv k e) k = some e := by
  induction kv with
  | nil => simp [kvPut, kvGet]
  | cons p rest ih =>
    obtain ⟨k0, e0⟩ := p
    by_cases h : k0 = k
    · subst h
      simp [kvPut, kvGet]
    · simp [kvPut, kvGet, h, ih]

lemma kvGet_kvPut_ne (kv : KV) (k q : KVKey) (e : KVEntry) (h : k ≠ q) :
    kvGet (kvPut kv k e) q = kvGet kv q := by
  induction kv with
  | nil => simp [kvPut, kvGet, h]
  | cons p rest ih =>
    obtain ⟨k0, e0⟩ := p
    by_cases hk : k0 = k
    · subst hk
      simp [kvPut, kvGet, h]
    · simp [kvPut, kvGet, hk, ih]

lemma pairedInv_putPair (kv : KV) (dp sid iid : String) (d s : String) (lid : Int)
    (h : pairedInv kv) :
    pairedInv (kvPut (kvPut kv (instanceKeyOf dp sid iid) ⟨d, lid⟩)
      (instanceLeaseKeyOf dp sid iid) ⟨s, lid⟩) := by
  intro dp2 sid2 iid2
  by_cases heq : dp2 = dp ∧ sid2 = sid ∧ iid2 = iid
  · obtain ⟨h1, h2, h3⟩ := heq
    subst h1
    subst h2
    subst h3
    unfold pairedAt
    rw [kvGet_kvPut_ne _ _ _ _ (by simp [instanceKeyOf, instanceLeaseKeyOf]),
        kvGet_kvPut_self, kvGet_kvPut_self]
  · have hii : instanceKeyOf dp sid iid ≠ instanceKeyOf dp2 sid2 iid2 := by
      intro hk
      simp only [instanceKeyOf, List.cons.injEq, true_and, and_true] at hk
      exact heq ⟨hk.1.symm, hk.2.1.symm, hk.2.2.symm⟩
    have hll : instanceLeaseKeyOf dp sid iid ≠ instanceLeaseKeyOf dp2 sid2 iid2 := by
      intro hk
      simp only [instanceLeaseKeyOf, List.cons.injEq, true_and, and_true] at hk
      exact heq ⟨hk.1.symm, hk.2.1.symm, hk.2.2.symm⟩
    have hli : instanceLeaseKeyOf dp sid iid ≠ instanceKeyOf dp2 sid2 iid2 := by
      simp [instanceKeyOf, instanceLeaseKeyOf]
    have hil : instanceKeyOf dp sid iid ≠ instanceLeaseKeyOf dp2 sid2 iid2 := by
      simp [instanceKeyOf, instanceLeaseKeyOf]
    unfold pairedAt
    rw [kvGet_kvPut_ne _ _ _ _ hli, kvGet_kvPut_ne _ _ _ _ hii,
        kvGet_kvPut_ne _ _ _ _ hll, kvGet_kvPut_ne _ _ _ _ hil]
    exact h dp2 sid2 iid2

lemma registerCommit_cases (env : RegisterEnv) (ctx : Ctx) (st : RegState) (inst : Instance)
    (qa : Bool) :
    (env.marshalFail = true ∧ registerCommit env ctx st inst qa =
        { code := Code.internalErr, st := st, eff := { quotaApplied := qa }, retErr := true }) ∨
    (env.leaseGrant = none ∧ registerCommit env ctx st inst qa =
        { code := Code.unavailableBackend, st := st, eff := { quotaApplied := qa },
          retErr := true }) ∨
    (∃ lid, env.leaseGrant = some lid ∧ env.txnFail = true ∧
        registerCommit env ctx st inst qa =
          { code := Code.unavailableBackend, st := st,
            eff := { quotaApplied := qa, leaseGranted := some lid,
                     txn := some (commitTxnOf ctx inst lid) },
            retErr := true }) ∨
    (∃ lid, env.leaseGrant = some lid ∧
        cmpVerNotZero st.kv (commitTxnOf ctx inst lid).cmpKey = true ∧
        registerCommit env ctx st inst qa =
          { code := Code.success, msg := "Register service instance successfully.",
            instanceId := inst.instanceId,
            st := { st with kv := applyOps st.kv (commitTxnOf ctx inst lid).ops },
            eff := { quotaApplied := qa, leaseGranted := some lid,
                     txn := some (commitTxnOf ctx inst lid), txnSucceeded := some true,
                     reportAttempted := true } }) ∨
    (∃ lid, env.leaseGrant = some lid ∧
        cmpVerNotZero st.kv (commitTxnOf ctx inst lid).cmpKey = false ∧
        registerCommit env ctx st inst qa =
          { code := Code.serviceNotExists, msg := "Service does not exist.", st := st,
            eff := { quotaApplied := qa, leaseGranted := some lid,
                     txn := some (commitTxnOf ctx inst lid),
                     txnSucceeded := some false } }) := by
  by_cases hm : env.marshalFail
  · exact Or.inl ⟨hm, by simp [registerCommit, hm]⟩
  · cases hg : env.leaseGrant with
    | none =>
      refine Or.inr (Or.inl ⟨rfl, ?_⟩)
      simp [registerCommit, hm, hg]
    | some lid =>
      by_cases ht : env.txnFail
      · refine Or.inr (Or.inr (Or.inl ⟨lid, rfl, ht, ?_⟩))
        simp [registerCommit, hm, hg, ht]
      · by_cases hc : cmpVerNotZero st.kv (commitTxnOf ctx inst lid).cmpKey = true
        · refine Or.inr (Or.inr (Or.inr (Or.inl ⟨lid, rfl, hc, ?_⟩)))
          simp [registerCommit, hm, hg, ht, txnWithCmp, hc]
        · refine Or.inr (Or.inr (Or.inr (Or.inr ⟨lid, rfl, by simpa using hc, ?_⟩)))
          simp only [Bool.not_eq_true] at hc
          simp [registerCommit, hm, hg, ht, txnWithCmp, hc]

lemma register_cases (env : RegisterEnv) (ctx : Ctx) (st : RegState) (inst0 : Instance) :
    (∃ m, env.validateErr = some m ∧
        register env ctx st inst0 = { code := Code.invalidParams, msg := m, st := st }) ∨
    (∃ e, env.validateErr = none ∧ env.instExistErr = some e ∧
        register env ctx st inst0 = { code := e.code, st := st, retErr := e.isInternal }) ∨
    (env.validateErr = none ∧ env.instExistErr = none ∧
        0 < (instanceExistByEndpoints st.instances inst0).length ∧
        register env ctx st inst0 =
          { code := Code.success, msg := "instance already exists",
            instanceId := instanceExistByEndpoints st.instances inst0, st := st }) ∨
    (∃ i e, env.validateErr = none ∧ env.instExistErr = none ∧
        ¬ 0 < (instanceExistByEndpoints st.instances inst0).length ∧
        preProcessRegisterInstance env inst0 = (i, some e) ∧
        register env ctx st inst0 = { code := e.code, st := st, retErr := e.isInternal }) ∨
    (∃ i, env.validateErr = none ∧ env.instExistErr = none ∧
        ¬ 0 < (instanceExistByEndpoints st.instances inst0).length ∧
        preProcessRegisterInstance env inst0 = (i, none) ∧ env.isSCInstance = true ∧
        register env ctx st inst0 = registerCommit env ctx st i false) ∨
    (∃ e, env.validateErr = none ∧ env.instExistErr = none ∧
        ¬ 0 < (instanceExistByEndpoints st.instances inst0).length ∧
        env.isSCInstance = false ∧ env.quotaErr = some e ∧
        register env ctx st inst0 =
          { code := e.code, st := st, eff := { quotaApplied := true },
            retErr := e.isInternal }) ∨
    (∃ i, env.validateErr = none ∧ env.instExistErr = none ∧
        ¬ 0 < (instanceExistByEndpoints st.instances inst0).length ∧
        preProcessRegisterInstance env inst0 = (i, none) ∧ env.isSCInstance = false ∧
        env.quotaErr = none ∧
        register env ctx st inst0 = registerCommit env ctx st i true) := by
  cases hv : env.validateErr with
  | some m => exact Or.inl ⟨m, rfl, by simp [register, hv]⟩
  | none =>
    cases he : env.instExistErr with
    | some e =>
      exact Or.inr (Or.inl ⟨e, rfl, rfl, by simp [register, hv, he]⟩)
    | none =>
      by_cases hold : 0 < (instanceExistByEndpoints st.instances inst0).length
      · refine Or.inr (Or.inr (Or.inl ⟨rfl, rfl, hold, ?_⟩))
        simp [register, hv, he, hold]
      · rcases hp : preProcessRegisterInstance env inst0 with ⟨i, err⟩
        cases err with
        | some e =>
          refine Or.inr (Or.inr (Or.inr (Or.inl ⟨i, e, rfl, rfl, hold, rfl, ?_⟩)))
          simp [register, hv, he, hold, hp]
        | none =>
          by_cases hsc : env.isSCInstance
          · refine Or.inr (Or.inr (Or.inr (Or.inr (Or.inl ⟨i, rfl, rfl, hold, rfl, hsc, ?_⟩))))
            simp [register, hv, he, hold, hp, hsc]
          · cases hq : env.quotaErr with
            | some e =>
              refine Or.inr (Or.inr (Or.inr (Or.inr (Or.inr (Or.inl
                ⟨e, rfl, rfl, hold, eq_false_of_ne_true hsc, rfl, ?_⟩)))))
              simp [register, hv, he, hold, hp, hsc, hq]
            | none =>
              refine Or.inr (Or.inr (Or.inr (Or.inr (Or.inr (Or.inr
                ⟨i, rfl, rfl, hold, rfl, eq_false_of_ne_true hsc, rfl, ?_⟩)))))
              simp [register, hv, he, hold, hp, hsc, hq]

lemma preProcessFill_healthCheck (env : RegisterEnv) (inst0 : Instance) :
    (preProcessFill env inst0).healthCheck = inst0.healthCheck := by
  unfold preProcessFill
  by_cases h1 : inst0.status.length = 0 <;> by_cases h2 : inst0.instanceId.length = 0 <;>
    simp [h1, h2]

lemma preProcessServiceStep_fst_healthCheck (env : RegisterEnv) (inst : Instance) :
    ((preProcessServiceStep env inst).1).healthCheck = inst.healthCheck := by
  unfold preProcessServiceStep
  cases env.serviceLookup <;> rfl

lemma preProcessServiceStep_snd (env : RegisterEnv) (inst : Instance) :
    (preProcessServiceStep env inst).2 = none ∨
    (preProcessServiceStep env inst).2 = some ⟨Code.serviceNotExists, false⟩ := by
  unfold preProcessServiceStep
  cases env.serviceLookup with
  | none => exact Or.inr rfl
  | some svc => exact Or.inl rfl

lemma preProcess_snd_cases (env : RegisterEnv) (inst0 : Instance) :
    (preProcessRegisterInstance env inst0).2 = none ∨
    (preProcessRegisterInstance env inst0).2 = some ⟨Code.serviceNotExists, false⟩ ∨
    ((preProcessRegisterInstance env inst0).2 = some ⟨Code.invalidParams, false⟩ ∧
      ∃ hc, inst0.healthCheck = some hc ∧ hc.mode = HCMode.heartbeat ∧
        (wrap32 (hc.interval * wrap32 (hc.times + 1)) ≤ 0 ∨
         2 ^ 31 - 1 ≤ wrap32 (hc.interval * wrap32 (hc.times + 1)))) := by
  cases hx : (preProcessFill env inst0).healthCheck with
  | none =>
    simp only [preProcessRegisterInstance, hx]
    rcases preProcessServiceStep_snd env
        { preProcessFill env inst0 with healthCheck := some ⟨HCMode.heartbeat,
          REGISTRY_DEFAULT_LEASE_RENEWALINTERVAL, REGISTRY_DEFAULT_LEASE_RETRYTIMES⟩ } with
      h | h
    · exact Or.inl h
    · exact Or.inr (Or.inl h)
  | some hc =>
    rcases hc with ⟨mode, i, t⟩
    cases mode with
    | heartbeat =>
      simp only [preProcessRegisterInstance, hx]
      by_cases hd : wrap32 (i * wrap32 (t + 1)) ≤ 0 ∨
          2 ^ 31 - 1 ≤ wrap32 (i * wrap32 (t + 1))
      · refine Or.inr (Or.inr ⟨?_, ⟨⟨HCMode.heartbeat, i, t⟩, ?_, rfl, ?_⟩⟩)
        · rw [if_pos hd]
        · rw [← preProcessFill_healthCheck env inst0, hx]
        · exact hd
      · rcases preProcessServiceStep_snd env (preProcessFill env inst0) with h | h
        · refine Or.inl ?_
          rw [if_neg hd]
          exact h
        · refine Or.inr (Or.inl ?_)
          rw [if_neg hd]
          exact h
    | platform =>
      simp only [preProcessRegisterInstance, hx]
      rcases preProcessServiceStep_snd env
          { preProcessFill env inst0 with healthCheck := some ⟨HCMode.platform,
            REGISTRY_DEFAULT_LEASE_RENEWALINTERVAL, REGISTRY_DEFAULT_LEASE_RETRYTIMES⟩ } with
        h | h
      · exact Or.inl h
      · exact Or.inr (Or.inl h)

lemma preProcess_snd_of_bad (env : RegisterEnv) (inst0 : Instance) (hc : HealthCheck)
    (hhc : inst0.healthCheck = some hc) (hm : hc.mode = HCMode.heartbeat)
    (hd : wrap32 (hc.interval * wrap32 (hc.times + 1)) ≤ 0 ∨
      2 ^ 31 - 1 ≤ wrap32 (hc.interval * wrap32 (hc.times + 1))) :
    (preProcessRegisterInstance env inst0).2 = some ⟨Code.invalidParams, false⟩ := by
  have hx : (preProcessFill env inst0).healthCheck = some hc :=
    (preProcessFill_healthCheck env inst0).trans hhc
  rcases hc with ⟨mode, i, t⟩
  cases hm
  have hd2 : wrap32 (i * wrap32 (t + 1)) ≤ 0 ∨
      2 ^ 31 - 1 ≤ wrap32 (i * wrap32 (t + 1)) := hd
  simp only [preProcessRegisterInstance, hx]
  rw [if_pos hd2]

lemma registerCommit_code_ne_invalidParams (env : RegisterEnv) (ctx : Ctx) (st : RegState)
    (inst : Instance) (qa : Bool) :
    (registerCommit env ctx st inst qa).code ≠ Code.invalidParams := by
  rcases registerCommit_cases env ctx st inst qa with
    ⟨_, h⟩ | ⟨_, h⟩ | ⟨lid, _, _, h⟩ | ⟨lid, _, _, h⟩ | ⟨lid, _, _, h⟩ <;>
    rw [h] <;> simp

lemma resolveProvider_requestRev (env : FindEnv) (ctx : Ctx) (p0 : MicroServiceKey) :
    ((resolveProvider env ctx p0).2).requestRev = ctx.requestRev := by
  unfold resolveProvider
  by_cases h : env.isShared p0 <;> simp [h]

lemma dedupElems_keys (l : List HbElem) : ∀ seen : List String,
    ((dedupElems seen l).map compositeKey).Nodup ∧
    (∀ k, k ∈ (dedupElems seen l).map compositeKey ↔ (k ∈ l.map compositeKey ∧ k ∉ seen)) := by
  induction l with
  | nil =>
    intro seen
    simp [dedupElems]
  | cons e rest ih =>
    intro seen
    by_cases h : compositeKey e ∈ seen
    · rw [dedupElems, if_pos h]
      refine ⟨(ih seen).1, ?_⟩
      intro k
      rw [(ih seen).2 k]
      simp only [List.map_cons, List.mem_cons]
      constructor
      · rintro ⟨hk, hns⟩
        exact ⟨Or.inr hk, hns⟩
      · rintro ⟨hk | hk, hns⟩
        · subst hk
          exact absurd h hns
        · exact ⟨hk, hns⟩
    · rw [dedupElems, if_neg h]
      have ih2 := ih (compositeKey e :: seen)
      simp only [List.map_cons]
      constructor
      · refine List.nodup_cons.mpr ⟨?_, ih2.1⟩
        intro hmem
        exact ((ih2.2 _).mp hmem).2 (List.mem_cons_self _ _)
      · intro k
        rw [List.mem_cons, ih2.2 k]
        constructor
        · rintro (hk | ⟨hk, hns⟩)
          · subst hk
            exact ⟨List.mem_cons_self _ _, h⟩
          · refine ⟨List.mem_cons_of_mem _ hk, fun hs => hns (List.mem_cons_of_mem _ hs)⟩
        · rintro ⟨hk, hns⟩
          by_cases hke : k = compositeKey e
          · exact Or.inl hke
          · rcases List.mem_cons.mp hk with hk2 | hk2
            · exact absurd hk2 hke
            · refine Or.inr ⟨hk2, ?_⟩
              intro hs
              rcases List.mem_cons.mp hs with hs2 | hs2
              · exact hke hs2
              · exact hns hs2

lemma heartbeatSet_instances (hb : String → String → String) (l : List HbElem)
    (hl : ¬ l.length = 0) :
    (heartbeatSet hb l).instances = (dedupElems [] l).map fun e =>
      { serviceId := e.serviceId, instanceId := e.instanceId,
        errMessage := hb e.serviceId e.instanceId : InstanceHbRst } := by
  rw [heartbeatSet, if_neg hl]
  simp only []
  split <;> rfl

lemma registerCommit_txnSpec (env : RegisterEnv) (ctx : Ctx) (st : RegState) (inst : Instance)
    (qa : Bool) (t : TxnReq)
    (h : (registerCommit env ctx st inst qa).eff.txn = some t) :
    commitTxnSpec st (registerCommit env ctx st inst qa) t := by
  rcases registerCommit_cases env ctx st inst qa with
    ⟨hm, hout⟩ | ⟨hg, hout⟩ | ⟨lid, hg, ht, hout⟩ | ⟨lid, hg, hc, hout⟩ | ⟨lid, hg, hc, hout⟩
  · rw [hout] at h
    exact absurd h (by simp)
  · rw [hout] at h
    exact absurd h (by simp)
  · rw [hout] at h ⊢
    have h2 : some (commitTxnOf ctx inst lid) = some t := h
    have ht2 := Option.some.inj h2
    subst ht2
    refine ⟨⟨lid, instJson inst, parseDomainProject ctx, inst.serviceId, inst.instanceId,
      rfl, rfl, rfl⟩, ?_, ?_⟩
    · intro hpi
      exact hpi
    · intro hx
      exact absurd hx (by simp)
  · rw [hout] at h ⊢
    have h2 : some (commitTxnOf ctx inst lid) = some t := h
    have ht2 := Option.some.inj h2
    subst ht2
    refine ⟨⟨lid, instJson inst, parseDomainProject ctx, inst.serviceId, inst.instanceId,
      rfl, rfl, rfl⟩, ?_, ?_⟩
    · intro hpi
      exact pairedInv_putPair st.kv (parseDomainProject ctx) inst.serviceId inst.instanceId
        (instJson inst) (toString lid) lid hpi
    · intro _
      exact hc
  · rw [hout] at h ⊢
    have h2 : some (commitTxnOf ctx inst lid) = some t := h
    have ht2 := Option.some.inj h2
    subst ht2
    refine ⟨⟨lid, instJson inst, parseDomainProject ctx, inst.serviceId, inst.instanceId,
      rfl, rfl, rfl⟩, ?_, ?_⟩
    · intro hpi
      exact hpi
    · intro hx
      exact absurd hx (by simp)

lemma registerCommit_failed_behavior (env : RegisterEnv) (ctx : Ctx) (st : RegState)
    (inst : Instance) (qa : Bool)
    (h : (registerCommit env ctx st inst qa).eff.txnSucceeded = some false) :
    (registerCommit env ctx st inst qa).code = Code.serviceNotExists ∧
    (registerCommit env ctx st inst qa).retErr = false ∧
    (registerCommit env ctx st inst qa).st = st ∧
    (registerCommit env ctx st inst qa).eff.leaseRevoked = false := by
  rcases registerCommit_cases env ctx st inst qa with
    ⟨hm, hout⟩ | ⟨hg, hout⟩ | ⟨lid, hg, ht, hout⟩ | ⟨lid, hg, hc, hout⟩ | ⟨lid, hg, hc, hout⟩ <;>
    rw [hout] at h ⊢
  · exact absurd h (by simp)
  · exact absurd h (by simp)
  · exact absurd h (by simp)
  · exact absurd h (by simp)
  · exact ⟨rfl, rfl, rfl, rfl⟩

lemma registerCommit_quota_report (env : RegisterEnv) (ctx : Ctx) (st : RegState)
    (inst : Instance) (qa : Bool) :
    (registerCommit env ctx st inst qa).eff.quotaApplied = qa ∧
    ((registerCommit env ctx st inst qa).eff.txnSucceeded = some true →
      (registerCommit env ctx st inst qa).code = Code.success ∧
      (registerCommit env ctx st inst qa).eff.reportAttempted = true) := by
  rcases registerCommit_cases env ctx st inst qa with
    ⟨hm, hout⟩ | ⟨hg, hout⟩ | ⟨lid, hg, ht, hout⟩ | ⟨lid, hg, hc, hout⟩ | ⟨lid, hg, hc, hout⟩ <;>
    rw [hout]
  · exact ⟨rfl, fun hx => absurd hx (by simp)⟩
  · exact ⟨rfl, fun hx => absurd hx (by simp)⟩
  · exact ⟨rfl, fun hx => absurd hx (by simp)⟩
  · exact ⟨rfl, fun _ => ⟨rfl, rfl⟩⟩
  · exact ⟨rfl, fun hx => absurd hx (by simp)⟩

/-- C1: every Register run that reaches the commit phase has built one
transaction whose two puts are the instance key and its sibling lease key,
both under the lease id obtained from the preceding lease grant, guarded
by the compare `version(service key) NOT_EQUAL 0`; consequently Register
preserves the instance/lease pairing invariant of the store and a
successful commit implies the owning service key existed at commit time. -/
theorem register_commit_txn_atomic_paired (env : RegisterEnv) (ctx : Ctx) (st : RegState)
    (inst0 : Instance) (t : TxnReq)
    (h : (register env ctx st inst0).eff.txn = some t) :
    commitTxnSpec st (register env ctx st inst0) t := by
  rcases register_cases env ctx st inst0 with
    ⟨m, hv, hout⟩ | ⟨e, hv, he, hout⟩ | ⟨hv, he, hold, hout⟩ | ⟨i, e, hv, he, hold, hp, hout⟩ |
    ⟨i, hv, he, hold, hp, hsc, hout⟩ | ⟨e, hv, he, hold, hsc, hq, hout⟩ |
    ⟨i, hv, he, hold, hp, hsc, hq, hout⟩
  · rw [hout] at h
    exact absurd h (by simp)
  · rw [hout] at h
    exact absurd h (by simp)
  · rw [hout] at h
    exact absurd h (by simp)
  · rw [hout] at h
    exact absurd h (by simp)
  · rw [hout] at h ⊢
    exact registerCommit_txnSpec env ctx st i false t h
  · rw [hout] at h
    exact absurd h (by simp)
  · rw [hout] at h ⊢
    exact registerCommit_txnSpec env ctx st i true t h

/-- C1 witness: a concrete Register run that reaches the commit phase,
with the transaction it builds. -/
theorem register_commit_txn_atomic_paired_witness :
    (register envOk ctx0 stOk instFix).eff.txn = some txnC1 ∧
    commitTxnSpec stOk (register envOk ctx0 stOk instFix) txnC1 :=
  ⟨by decide, register_commit_txn_atomic_paired envOk ctx0 stOk instFix txnC1 (by decide)⟩

/-- C2: when the endpoints pre-check finds a live instance of the same
service with the same endpoints and host name, Register answers SUCCESS
with the existing instance id, performs no quota application, no lease
grant and no KV write, leaves the state unchanged, and a second identical
Register returns the same instance id again. -/
theorem register_idempotent_on_endpoints (env : RegisterEnv) (ctx : Ctx) (st : RegState)
    (inst0 : Instance)
    (hv : env.validateErr = none) (he : env.instExistErr = none)
    (hx : 0 < (instanceExistByEndpoints st.instances inst0).length) :
    (register env ctx st inst0).code = Code.success ∧
    (register env ctx st inst0).instanceId = instanceExistByEndpoints st.instances inst0 ∧
    (register env ctx st inst0).st = st ∧
    (register env ctx st inst0).eff = {} ∧
    (register env ctx (register env ctx st inst0).st inst0).instanceId =
      instanceExistByEndpoints st.instances inst0 := by
  have hout : register env ctx st inst0 =
      { code := Code.success, msg := "instance already exists",
        instanceId := instanceExistByEndpoints st.instances inst0, st := st } := by
    rcases register_cases env ctx st inst0 with
      ⟨m, hv2, hout⟩ | ⟨e, hv2, he2, hout⟩ | ⟨hv2, he2, hold, hout⟩ |
      ⟨i, e, hv2, he2, hold, hp, hout⟩ | ⟨i, hv2, he2, hold, hp, hsc, hout⟩ |
      ⟨e, hv2, he2, hold, hsc, hq, hout⟩ | ⟨i, hv2, he2, hold, hp, hsc, hq, hout⟩
    · rw [hv] at hv2
      cases hv2
    · rw [he] at he2
      cases he2
    · exact hout
    · exact absurd hx hold
    · exact absurd hx hold
    · exact absurd hx hold
    · exact absurd hx hold
  refine ⟨by rw [hout], by rw [hout], by rw [hout], by rw [hout], ?_⟩
  have hst : (register env ctx st inst0).st = st := by rw [hout]
  rw [hst, hout]

/-- C2 witness: a concrete duplicate registration is answered with the
existing instance id and no side effects. -/
theorem register_idempotent_on_endpoints_witness :
    envOk.validateErr = none ∧ envOk.instExistErr = none ∧
    0 < (instanceExistByEndpoints stReuse.instances instFix).length ∧
    ((register envOk ctx0 stReuse instFix).code = Code.success ∧
     (register envOk ctx0 stReuse instFix).instanceId =
       instanceExistByEndpoints stReuse.instances instFix ∧
     (register envOk ctx0 stReuse instFix).st = stReuse ∧
     (register envOk ctx0 stReuse instFix).eff = {} ∧
     (register envOk ctx0 (register envOk ctx0 stReuse instFix).st instFix).instanceId =
       instanceExistByEndpoints stReuse.instances instFix) :=
  ⟨rfl, rfl, by decide,
   register_idempotent_on_endpoints envOk ctx0 stReuse instFix rfl rfl (by decide)⟩

/-- C4 counterexample: a Register run whose commit transaction reports
succeeded = false; the code returns ServiceNotExists but never revokes
the lease it granted (lease id 7 stays granted, no revoke call exists on
this path in instance.go lines 200-207), contradicting the claim that the
lease is revoked. -/
theorem register_failed_commit_no_revoke_counterexample :
    (register envOk ctx0 stEmpty instFix).eff.txnSucceeded = some false ∧
    (register envOk ctx0 stEmpty instFix).eff.leaseGranted = some 7 ∧
    (register envOk ctx0 stEmpty instFix).eff.leaseRevoked = false ∧
    (register envOk ctx0 stEmpty instFix).code = Code.serviceNotExists := by
  decide

/-- C4 (amended): when the commit transaction reports succeeded = false,
Register returns ServiceNotExists as a non-internal error and the KV
state is left without the instance and lease keys (unchanged); the
granted lease is NOT revoked - it is left to expire by its TTL. -/
theorem register_failed_commit_behavior (env : RegisterEnv) (ctx : Ctx) (st : RegState)
    (inst0 : Instance)
    (h : (register env ctx st inst0).eff.txnSucceeded = some false) :
    (register env ctx st inst0).code = Code.serviceNotExists ∧
    (register env ctx st inst0).retErr = false ∧
    (register env ctx st inst0).st = st ∧
    (register env ctx st inst0).eff.leaseRevoked = false := by
  rcases register_cases env ctx st inst0 with
    ⟨m, hv, hout⟩ | ⟨e, hv, he, hout⟩ | ⟨hv, he, hold, hout⟩ | ⟨i, e, hv, he, hold, hp, hout⟩ |
    ⟨i, hv, he, hold, hp, hsc, hout⟩ | ⟨e, hv, he, hold, hsc, hq, hout⟩ |
    ⟨i, hv, he, hold, hp, hsc, hq, hout⟩
  · rw [hout] at h
    exact absurd h (by simp)
  · rw [hout] at h
    exact absurd h (by simp)
  · rw [hout] at h
    exact absurd h (by simp)
  · rw [hout] at h
    exact absurd h (by simp)
  · rw [hout] at h ⊢
    exact registerCommit_failed_behavior env ctx st i false h
  · rw [hout] at h
    exact absurd h (by simp)
  · rw [hout] at h ⊢
    exact registerCommit_failed_behavior env ctx st i true h

/-- C4 witness: the amended behaviour on a concrete failed commit. -/
theorem register_failed_commit_behavior_witness :
    (register envOk ctx0 stEmpty instFix).eff.txnSucceeded = some false ∧
    ((register envOk ctx0 stEmpty instFix).code = Code.serviceNotExists ∧
     (register envOk ctx0 stEmpty instFix).retErr = false ∧
     (register envOk ctx0 stEmpty instFix).st = stEmpty ∧
     (register envOk ctx0 stEmpty instFix).eff.leaseRevoked = false) :=
  ⟨by decide, register_failed_commit_behavior envOk ctx0 stEmpty instFix (by decide)⟩

/-- C10: when the caller is the registry's own instance, Register never
applies quota (the reporter stays nil), yet after a successful commit it
still reaches the ReportUsedQuota call; the call is safe because the
reporter is nil-guarded (a no-op on an absent reservation), and Register
returns SUCCESS. -/
theorem register_sc_instance_nil_reporter_safe (env : RegisterEnv) (ctx : Ctx) (st : RegState)
    (inst0 : Instance) (hsc : env.isSCInstance = true) :
    (register env ctx st inst0).eff.quotaApplied = false ∧
    ((register env ctx st inst0).eff.txnSucceeded = some true →
      (register env ctx st inst0).code = Code.success ∧
      (register env ctx st inst0).eff.reportAttempted = true) ∧
    reportUsedQuota none = none := by
  rcases register_cases env ctx st inst0 with
    ⟨m, hv, hout⟩ | ⟨e, hv, he, hout⟩ | ⟨hv, he, hold, hout⟩ | ⟨i, e, hv, he, hold, hp, hout⟩ |
    ⟨i, hv, he, hold, hp, hsc2, hout⟩ | ⟨e, hv, he, hold, hsc2, hq, hout⟩ |
    ⟨i, hv, he, hold, hp, hsc2, hq, hout⟩
  · rw [hout]
    exact ⟨rfl, fun hx => absurd hx (by simp), rfl⟩
  · rw [hout]
    exact ⟨rfl, fun hx => absurd hx (by simp), rfl⟩
  · rw [hout]
    exact ⟨rfl, fun hx => absurd hx (by simp), rfl⟩
  · rw [hout]
    exact ⟨rfl, fun hx => absurd hx (by simp), rfl⟩
  · rw [hout]
    exact ⟨(registerCommit_quota_report env ctx st i false).1,
      (registerCommit_quota_report env ctx st i false).2, rfl⟩
  · rw [hsc] at hsc2
    cases hsc2
  · rw [hsc] at hsc2
    cases hsc2

/-- C10 witness: a concrete self-registration that commits successfully
with no quota applied and the report call reached. -/
theorem register_sc_instance_nil_reporter_safe_witness :
    ({ envOk with isSCInstance := true } : RegisterEnv).isSCInstance = true ∧
    (register { envOk with isSCInstance := true } ctx0 stOk instFix).eff.txnSucceeded =
      some true ∧
    ((register { envOk with isSCInstance := true } ctx0 stOk instFix).eff.quotaApplied = false ∧
     ((register { envOk with isSCInstance := true } ctx0 stOk instFix).eff.txnSucceeded =
        some true →
       (register { envOk with isSCInstance := true } ctx0 stOk instFix).code = Code.success ∧
       (register { envOk with isSCInstance := true } ctx0 stOk instFix).eff.reportAttempted =
         true) ∧
     reportUsedQuota none = none) :=
  ⟨rfl, by decide,
   register_sc_instance_nil_reporter_safe { envOk with isSCInstance := true } ctx0 stOk instFix
     rfl⟩

/-- C3 counterexample: the claim predicts acceptance exactly when the
mathematical product interval * (retry + 1) lies in (0, 2^31), but (a) a
HEARTBEAT request with product 2^31 - 1 (inside the claimed-open interval)
is rejected with InvalidParams because the source tests `d >= math.MaxInt32`,
and (b) a PLATFORM request with product 0 (outside the interval) is not
rejected at all because the range check only runs in HEARTBEAT mode. -/
theorem register_ttl_bound_counterexample :
    ((register envOk ctx0 stEmpty
        { instFix with healthCheck := some ⟨HCMode.heartbeat, 2147483647, 0⟩ }).code =
          Code.invalidParams ∧
      (0 : Int) < 2147483647 * (0 + 1) ∧ 2147483647 * (0 + 1) < 2 ^ 31) ∧
    ((register envOk ctx0 stEmpty
        { instFix with healthCheck := some ⟨HCMode.platform, 0, 0⟩ }).code ≠
          Code.invalidParams ∧
      ¬ (0 : Int) < 0 * (0 + 1)) := by
  decide

/-- C3 (amended): under a passing validator, a clean existence pre-check,
no endpoint reuse and no quota error, Register fails with InvalidParams
exactly when the request carries a health check in HEARTBEAT mode whose
int32-wrapped product interval * (retry + 1) is ≤ 0 or ≥ 2^31 - 1
(= math.MaxInt32); PLATFORM mode and a missing health check never trip
this rejection. -/
theorem register_invalidParams_iff_heartbeat_ttl_out_of_range
    (env : RegisterEnv) (ctx : Ctx) (st : RegState) (inst0 : Instance) (hc : HealthCheck)
    (hv : env.validateErr = none) (he : env.instExistErr = none) (hq : env.quotaErr = none)
    (hold : instanceExistByEndpoints st.instances inst0 = "")
    (hhc : inst0.healthCheck = some hc) :
    ((register env ctx st inst0).code = Code.invalidParams ↔
      hc.mode = HCMode.heartbeat ∧
        (wrap32 (hc.interval * wrap32 (hc.times + 1)) ≤ 0 ∨
         2 ^ 31 - 1 ≤ wrap32 (hc.interval * wrap32 (hc.times + 1)))) := by
  have hold2 : ¬ 0 < (instanceExistByEndpoints st.instances inst0).length := by
    rw [hold]
    decide
  constructor
  · intro h
    rcases register_cases env ctx st inst0 with
      ⟨m, hv2, hout⟩ | ⟨e, hv2, he2, hout⟩ | ⟨hv2, he2, hold3, hout⟩ |
      ⟨i, e, hv2, he2, hold3, hp, hout⟩ | ⟨i, hv2, he2, hold3, hp, hsc, hout⟩ |
      ⟨e, hv2, he2, hold3, hsc, hq2, hout⟩ | ⟨i, hv2, he2, hold3, hp, hsc, hq2, hout⟩
    · rw [hv] at hv2
      cases hv2
    · rw [he] at he2
      cases he2
    · exact absurd hold3 hold2
    · rw [hout] at h
      have h2 : e.code = Code.invalidParams := h
      rcases preProcess_snd_cases env inst0 with hn | hs | ⟨hinv, hc2, hhc2, hm2, hd2⟩
      · rw [hp] at hn
        exact absurd hn (by simp)
      · rw [hp] at hs
        have he3 : e = ⟨Code.serviceNotExists, false⟩ := Option.some.inj hs
        rw [he3] at h2
        exact absurd h2 (by decide)
      · rw [hhc] at hhc2
        have heq : hc = hc2 := Option.some.inj hhc2
        subst heq
        exact ⟨hm2, hd2⟩
    · rw [hout] at h
      exact absurd h (registerCommit_code_ne_invalidParams env ctx st i false)
    · rw [hq] at hq2
      cases hq2
    · rw [hout] at h
      exact absurd h (registerCommit_code_ne_invalidParams env ctx st i true)
  · rintro ⟨hm, hd⟩
    have hpre := preProcess_snd_of_bad env inst0 hc hhc hm hd
    rcases register_cases env ctx st inst0 with
      ⟨m, hv2, hout⟩ | ⟨e, hv2, he2, hout⟩ | ⟨hv2, he2, hold3, hout⟩ |
      ⟨i, e, hv2, he2, hold3, hp, hout⟩ | ⟨i, hv2, he2, hold3, hp, hsc, hout⟩ |
      ⟨e, hv2, he2, hold3, hsc, hq2, hout⟩ | ⟨i, hv2, he2, hold3, hp, hsc, hq2, hout⟩
    · rw [hv] at hv2
      cases hv2
    · rw [he] at he2
      cases he2
    · exact absurd hold3 hold2
    · rw [hp] at hpre
      have he3 : e = ⟨Code.invalidParams, false⟩ := Option.some.inj hpre
      rw [hout, he3]
    · rw [hp] at hpre
      exact absurd hpre (by simp)
    · rw [hq] at hq2
      cases hq2
    · rw [hp] at hpre
      exact absurd hpre (by simp)

/-- C3 witness: the amended equivalence instantiated at a concrete
HEARTBEAT request with interval 0 and retry 0. -/
theorem register_invalidParams_iff_heartbeat_ttl_out_of_range_witness :
    envOk.validateErr = none ∧ envOk.instExistErr = none ∧ envOk.quotaErr = none ∧
    instanceExistByEndpoints stEmpty.instances instBad = "" ∧
    instBad.healthCheck = some hcBad ∧
    ((register envOk ctx0 stEmpty instBad).code = Code.invalidParams ↔
      hcBad.mode = HCMode.heartbeat ∧
        (wrap32 (hcBad.interval * wrap32 (hcBad.times + 1)) ≤ 0 ∨
         2 ^ 31 - 1 ≤ wrap32 (hcBad.interval * wrap32 (hcBad.times + 1)))) :=
  ⟨rfl, rfl, rfl, rfl, rfl,
   register_invalidParams_iff_heartbeat_ttl_out_of_range envOk ctx0 stEmpty instBad hcBad
     rfl rfl rfl rfl rfl⟩

/-- C9: a PLATFORM-mode health check is overwritten with the registry
defaults (interval 30, retry 3; effective TTL 30 * (3 + 1) = 120), whatever
the caller supplied, and a missing health check is replaced by exactly
those defaults in HEARTBEAT mode before the TTL is computed. -/
theorem preProcess_platform_and_missing_defaults (env : RegisterEnv) (inst0 : Instance) :
    (∀ i t, inst0.healthCheck = some ⟨HCMode.platform, i, t⟩ →
      (preProcessRegisterInstance env inst0).1.healthCheck = some ⟨HCMode.platform, 30, 3⟩ ∧
      ttlOf (preProcessRegisterInstance env inst0).1 = 120) ∧
    (inst0.healthCheck = none →
      (preProcessRegisterInstance env inst0).1.healthCheck = some ⟨HCMode.heartbeat, 30, 3⟩ ∧
      ttlOf (preProcessRegisterInstance env inst0).1 = 120) := by
  constructor
  · intro i t hhc
    have hx : (preProcessFill env inst0).healthCheck = some ⟨HCMode.platform, i, t⟩ :=
      (preProcessFill_healthCheck env inst0).trans hhc
    have h1 : (preProcessRegisterInstance env inst0).1.healthCheck =
        some ⟨HCMode.platform, 30, 3⟩ := by
      simp only [preProcessRegisterInstance, hx]
      rw [preProcessServiceStep_fst_healthCheck]
      rfl
    refine ⟨h1, ?_⟩
    simp only [ttlOf, h1]
    decide
  · intro hhc
    have hx : (preProcessFill env inst0).healthCheck = none :=
      (preProcessFill_healthCheck env inst0).trans hhc
    have h1 : (preProcessRegisterInstance env inst0).1.healthCheck =
        some ⟨HCMode.heartbeat, 30, 3⟩ := by
      simp only [preProcessRegisterInstance, hx]
      rw [preProcessServiceStep_fst_healthCheck]
      rfl
    refine ⟨h1, ?_⟩
    simp only [ttlOf, h1]
    decide

/-- C9 witness: a concrete PLATFORM registration with caller values
999/888 is forced back to the 30/3 defaults and a 120 second TTL. -/
theorem preProcess_platform_and_missing_defaults_witness :
    instPlat.healthCheck = some ⟨HCMode.platform, 999, 888⟩ ∧
    ((preProcessRegisterInstance envOk instPlat).1.healthCheck =
      some ⟨HCMode.platform, 30, 3⟩ ∧
     ttlOf (preProcessRegisterInstance envOk instPlat).1 = 120) :=
  ⟨rfl, (preProcess_platform_and_missing_defaults envOk instPlat).1 999 888 rfl⟩

lemma heartbeatSet_code (hb : String → String → String) (l : List HbElem)
    (hl : ¬ l.length = 0) :
    (heartbeatSet hb l).code =
      (if (!(((dedupElems [] l).map fun e =>
              { serviceId := e.serviceId, instanceId := e.instanceId,
                errMessage := hb e.serviceId e.instanceId : InstanceHbRst }).any
              fun r => r.errMessage.length != 0) &&
           (((dedupElems [] l).map fun e =>
              { serviceId := e.serviceId, instanceId := e.instanceId,
                errMessage := hb e.serviceId e.instanceId : InstanceHbRst }).any
              fun r => r.errMessage.length == 0)) = true
       then Code.success else Code.instanceNotExists) := by
  rw [heartbeatSet, if_neg hl]
  simp only []
  split
  · rfl
  · rfl

lemma hbAggregate (rs : List InstanceHbRst) :
    ((∃ r ∈ rs, r.errMessage ≠ "") →
      (if (!(rs.any fun r => r.errMessage.length != 0) &&
           (rs.any fun r => r.errMessage.length == 0)) = true
       then Code.success else Code.instanceNotExists) = Code.instanceNotExists) ∧
    ((∃ r ∈ rs, r.errMessage = "") → (∀ r ∈ rs, r.errMessage = "") →
      (if (!(rs.any fun r => r.errMessage.length != 0) &&
           (rs.any fun r => r.errMessage.length == 0)) = true
       then Code.success else Code.instanceNotExists) = Code.success) := by
  constructor
  · rintro ⟨r, hr, hne⟩
    have hfail : (rs.any fun r => r.errMessage.length != 0) = true := by
      rw [List.any_eq_true]
      refine ⟨r, hr, ?_⟩
      simp only [bne_iff_ne, ne_eq, string_length_eq_zero]
      exact hne
    rw [if_neg]
    simp [hfail]
  · rintro ⟨r, hr, hr0⟩ hall
    have hsucc : (rs.any fun r => r.errMessage.length == 0) = true := by
      rw [List.any_eq_true]
      refine ⟨r, hr, ?_⟩
      simp [string_length_eq_zero, hr0]
    have hnofail : (rs.any fun r => r.errMessage.length != 0) = false := by
      rw [List.any_eq_false]
      intro x hx
      simp only [bne_iff_ne, ne_eq, string_length_eq_zero, not_not]
      exact hall x hx
    rw [if_pos]
    rw [hnofail, hsucc]
    rfl

/-- C5 counterexample: the two elements ("ab","c") and ("a","bc") are
distinct (service_id, instance_id) pairs - so the claim demands two
per-element results - but their composite keys concatenate to the same
string "abc", so HeartbeatSet deduplicates them into a single result. -/
theorem heartbeatSet_concat_collision_counterexample :
    (heartbeatSet (fun _ _ => "") [⟨"ab", "c"⟩, ⟨"a", "bc"⟩]).instances.length = 1 ∧
    (⟨"ab", "c"⟩ : HbElem) ≠ (⟨"a", "bc"⟩ : HbElem) := by
  decide

/-- C5 (amended): HeartbeatSet returns exactly one per-element result for
every distinct composite key `service_id ++ instance_id` occurring in the
request: the result keys are duplicate-free and cover exactly the request
keys; elements whose composite key repeats an earlier element are dropped
and receive no individual acknowledgement. -/
theorem heartbeatSet_one_result_per_composite_key (hb : String → String → String)
    (l : List HbElem) :
    ((heartbeatSet hb l).instances.map rstKeyOf).Nodup ∧
    (∀ k, k ∈ (heartbeatSet hb l).instances.map rstKeyOf ↔ k ∈ l.map compositeKey) := by
  by_cases hl : l.length = 0
  · have hnil : l = [] := List.length_eq_zero.mp hl
    subst hnil
    constructor
    · simp [heartbeatSet]
    · intro k
      simp [heartbeatSet]
  · rw [heartbeatSet_instances hb l hl]
    have hmap : (((dedupElems [] l).map fun e =>
        { serviceId := e.serviceId, instanceId := e.instanceId,
          errMessage := hb e.serviceId e.instanceId : InstanceHbRst }).map rstKeyOf) =
        (dedupElems [] l).map compositeKey := by
      rw [List.map_map]
      rfl
    rw [hmap]
    have hd := dedupElems_keys l []
    refine ⟨hd.1, ?_⟩
    intro k
    rw [(hd.2 k)]
    simp

/-- C5 witness: on the colliding request the single result record is
duplicate-free and its key set is exactly the request's key set. -/
theorem heartbeatSet_one_result_per_composite_key_witness :
    ((heartbeatSet (fun _ _ => "") [⟨"ab", "c"⟩, ⟨"a", "bc"⟩]).instances.map rstKeyOf).Nodup ∧
    ("abc" ∈ (heartbeatSet (fun _ _ => "") [⟨"ab", "c"⟩, ⟨"a", "bc"⟩]).instances.map rstKeyOf ↔
      "abc" ∈ ([⟨"ab", "c"⟩, ⟨"a", "bc"⟩] : List HbElem).map compositeKey) :=
  ⟨(heartbeatSet_one_result_per_composite_key (fun _ _ => "") [⟨"ab", "c"⟩, ⟨"a", "bc"⟩]).1,
   (heartbeatSet_one_result_per_composite_key (fun _ _ => "") [⟨"ab", "c"⟩, ⟨"a", "bc"⟩]).2
     "abc"⟩

/-- C6: if any returned per-element heartbeat result carries a non-empty
error message the top-level HeartbeatSet code is InstanceNotExists (the
per-element results are returned either way, being the same list the code
is computed from); if some element succeeded and none failed, the
top-level code is SUCCESS. -/
theorem heartbeatSet_aggregation (hb : String → String → String) (l : List HbElem) :
    ((∃ r ∈ (heartbeatSet hb l).instances, r.errMessage ≠ "") →
      (heartbeatSet hb l).code = Code.instanceNotExists) ∧
    ((∃ r ∈ (heartbeatSet hb l).instances, r.errMessage = "") →
      (∀ r ∈ (heartbeatSet hb l).instances, r.errMessage = "") →
      (heartbeatSet hb l).code = Code.success) := by
  by_cases hl : l.length = 0
  · have hnil : l = [] := List.length_eq_zero.mp hl
    subst hnil
    constructor
    · rintro ⟨r, hr, _⟩
      simp [heartbeatSet] at hr
    · rintro ⟨r, hr, _⟩
      simp [heartbeatSet] at hr
  · have h1 := heartbeatSet_instances hb l hl
    have h2 := heartbeatSet_code hb l hl
    rw [h1, h2]
    exact hbAggregate _

/-- C6 witness: a concrete batch with one success and one failure gets the
top-level InstanceNotExists code. -/
theorem heartbeatSet_aggregation_witness :
    (∃ r ∈ (heartbeatSet (fun sid _ => if sid = "s1" then "" else "boom")
        [⟨"s1", "i1"⟩, ⟨"s2", "i2"⟩]).instances, r.errMessage ≠ "") ∧
    (heartbeatSet (fun sid _ => if sid = "s1" then "" else "boom")
        [⟨"s1", "i1"⟩, ⟨"s2", "i2"⟩]).code = Code.instanceNotExists :=
  ⟨by decide,
   (heartbeatSet_aggregation (fun sid _ => if sid = "s1" then "" else "boom")
     [⟨"s1", "i1"⟩, ⟨"s2", "i2"⟩]).1 (by decide)⟩

lemma consumerResolve_error_code (env : FindEnv) (req : FindReq) (c : Code) (r : Bool)
    (h : consumerResolve env req = Except.error (c, r)) : c ≠ Code.success := by
  unfold consumerResolve at h
  by_cases h0 : req.consumerServiceId.length = 0
  · rw [if_pos h0] at h
    cases h
  · rw [if_neg h0] at h
    cases hcl : env.consumerLookup with
    | none =>
      rw [hcl] at h
      simp only [Except.error.injEq, Prod.mk.injEq] at h
      rw [← h.1]
      decide
    | some os =>
      cases os with
      | none =>
        rw [hcl] at h
        simp only [Except.error.injEq, Prod.mk.injEq] at h
        rw [← h.1]
        decide
      | some s =>
        rw [hcl] at h
        cases h

lemma find_shape (env : FindEnv) (ctx : Ctx) (req : FindReq) :
    ((find env ctx req).providerUsed = none ∧ (find env ctx req).code ≠ Code.success) ∨
    (∃ service, consumerResolve env req = Except.ok service ∧
      (find env ctx req).providerUsed =
        some (resolveProvider env ctx (buildProviderKey ctx req service)).1 ∧
      ((find env ctx req).code = Code.success →
        ∃ item,
          env.cacheGet (resolveProvider env ctx (buildProviderKey ctx req service)).1 =
            some (some item) ∧
          find env ctx req =
            findFinish ctx.requestRev
              (resolveProvider env ctx (buildProviderKey ctx req service)).1 item)) := by
  cases hv : env.validateErr with
  | some m =>
    left
    constructor
    · simp [find, hv]
    · simp [find, hv]
  | none =>
    cases hr : consumerResolve env req with
    | error cr =>
      obtain ⟨c, r⟩ := cr
      left
      have hc := consumerResolve_error_code env req c r hr
      constructor
      · simp [find, hv, hr]
      · simp [find, hv, hr]
        exact hc
    | ok service =>
      right
      refine ⟨service, rfl, ?_, ?_⟩
      · cases hcg : env.cacheGet (resolveProvider env ctx (buildProviderKey ctx req service)).1 with
        | none => simp [find, hv, hr, hcg]
        | some oitem =>
          cases oitem with
          | none => simp [find, hv, hr, hcg]
          | some item =>
            by_cases hdep : 0 < req.consumerServiceId.length ∧ 0 < item.serviceIds.length ∧
                env.existVersionRule = false
            · cases hrs : reshapeProviderKey env
                  (resolveProvider env ctx (buildProviderKey ctx req service)).1 with
              | none => simp [find, hv, hr, hcg, hdep, hrs]
              | some pk2 =>
                by_cases har : env.addRuleErr
                · simp [find, hv, hr, hcg, hdep, hrs, har, findFinish]
                · simp [find, hv, hr, hcg, hdep, hrs, har, findFinish]
            · simp [find, hv, hr, hcg, hdep, findFinish]
      · intro hcode
        cases hcg : env.cacheGet (resolveProvider env ctx (buildProviderKey ctx req service)).1 with
        | none =>
          rw [show find env ctx req =
              { code := Code.internalErr, retErr := true,
                providerUsed := some (resolveProvider env ctx
                  (buildProviderKey ctx req service)).1 } from by
            simp [find, hv, hr, hcg]] at hcode
          simp at hcode
        | some oitem =>
          cases oitem with
          | none =>
            rw [show find env ctx req =
                { code := Code.serviceNotExists,
                  providerUsed := some (resolveProvider env ctx
                    (buildProviderKey ctx req service)).1 } from by
              simp [find, hv, hr, hcg]] at hcode
            simp at hcode
          | some item =>
            refine ⟨item, rfl, ?_⟩
            by_cases hdep : 0 < req.consumerServiceId.length ∧ 0 < item.serviceIds.length ∧
                env.existVersionRule = false
            · cases hrs : reshapeProviderKey env
                  (resolveProvider env ctx (buildProviderKey ctx req service)).1 with
              | none =>
                rw [show find env ctx req =
                    { code := Code.serviceNotExists,
                      providerUsed := some (resolveProvider env ctx
                        (buildProviderKey ctx req service)).1 } from by
                  simp [find, hv, hr, hcg, hdep, hrs]] at hcode
                simp at hcode
              | some pk2 =>
                by_cases har : env.addRuleErr
                · rw [show find env ctx req =
                      { code := Code.internalErr, retErr := true,
                        providerUsed := some (resolveProvider env ctx
                          (buildProviderKey ctx req service)).1 } from by
                    simp [find, hv, hr, hcg, hdep, hrs, har]] at hcode
                  simp at hcode
                · have : find env ctx req =
                      findFinish ((resolveProvider env ctx
                          (buildProviderKey ctx req service)).2).requestRev
                        (resolveProvider env ctx (buildProviderKey ctx req service)).1 item := by
                    simp [find, hv, hr, hcg, hdep, hrs, har]
                  rw [this, resolveProvider_requestRev]
            · have : find env ctx req =
                  findFinish ((resolveProvider env ctx
                      (buildProviderKey ctx req service)).2).requestRev
                    (resolveProvider env ctx (buildProviderKey ctx req service)).1 item := by
                simp [find, hv, hr, hcg, hdep]
              rw [this, resolveProvider_requestRev]

/-- C7: on every successful Find call the response carries the cache
revision in the response context, and the instance payload is the cache
entry's full list when the caller revision differs from the cache
revision, but is emptied (omitted) when they are equal. -/
theorem find_rev_equal_omits_instances (env : FindEnv) (ctx : Ctx) (req : FindReq)
    (h : (find env ctx req).code = Code.success) :
    ∃ item, (find env ctx req).item = some item ∧
      (find env ctx req).respRev = some item.rev ∧
      (ctx.requestRev = item.rev → (find env ctx req).instances = []) ∧
      (ctx.requestRev ≠ item.rev → (find env ctx req).instances = item.instances) := by
  rcases find_shape env ctx req with ⟨_, hne⟩ | ⟨service, hr, hpu, hsucc⟩
  · exact absurd h hne
  · obtain ⟨item, hcg, hout⟩ := hsucc h
    refine ⟨item, ?_, ?_, ?_, ?_⟩
    · rw [hout]
      simp [findFinish]
    · rw [hout]
      simp [findFinish]
    · intro hrev
      rw [hout]
      simp [findFinish, hrev]
    · intro hrev
      rw [hout]
      simp [findFinish, hrev]

/-- C7 witness: a concrete successful Find whose caller revision matches
the cached revision. -/
theorem find_rev_equal_omits_instances_witness :
    (find fenvOk ctx0 freq0).code = Code.success ∧
    ∃ item, (find fenvOk ctx0 freq0).item = some item ∧
      (find fenvOk ctx0 freq0).respRev = some item.rev ∧
      (ctx0.requestRev = item.rev → (find fenvOk ctx0 freq0).instances = []) ∧
      (ctx0.requestRev ≠ item.rev → (find fenvOk ctx0 freq0).instances = item.instances) :=
  ⟨by decide, find_rev_equal_omits_instances fenvOk ctx0 freq0 (by decide)⟩

/-- C8: the provider key handed to the cache lookup is derived from the
request as follows - when the key is configured shared its environment is
overwritten with the registry's own environment while the tenant stays the
target domain/project from the request context; when it is not shared its
tenant is reset to the consumer's own domain/project and its environment
stays the consumer's environment. -/
theorem find_shared_provider_environment (env : FindEnv) (ctx : Ctx) (req : FindReq)
    (pk : MicroServiceKey)
    (h : (find env ctx req).providerUsed = some pk) :
    ∃ service, consumerResolve env req = Except.ok service ∧
      pk = (resolveProvider env ctx (buildProviderKey ctx req service)).1 ∧
      (env.isShared (buildProviderKey ctx req service) = true →
        pk.environment = env.registryEnv ∧ pk.tenant = ctx.targetDomainProject) ∧
      (env.isShared (buildProviderKey ctx req service) = false →
        pk.tenant = parseDomainProject ctx ∧ pk.environment = service.environment) := by
  rcases find_shape env ctx req with ⟨hnone, _⟩ | ⟨service, hr, hpu, _⟩
  · rw [h] at hnone
    cases hnone
  · rw [h] at hpu
    have hpk : pk = (resolveProvider env ctx (buildProviderKey ctx req service)).1 :=
      Option.some.inj hpu
    refine ⟨service, hr, hpk, ?_, ?_⟩
    · intro hs
      rw [hpk]
      unfold resolveProvider
      rw [if_pos hs]
      exact ⟨rfl, rfl⟩
    · intro hs
      rw [hpk]
      unfold resolveProvider
      rw [if_neg (by simp [hs])]
      exact ⟨rfl, rfl⟩

/-- C8 witness: the shared fixture's provider key is looked up with the
registry's environment and the request's target tenant. -/
theorem find_shared_provider_environment_witness :
    (find fenvShared ctx0 freq0).providerUsed = some pkShared ∧
    ∃ service, consumerResolve fenvShared freq0 = Except.ok service ∧
      pkShared = (resolveProvider fenvShared ctx0 (buildProviderKey ctx0 freq0 service)).1 ∧
      (fenvShared.isShared (buildProviderKey ctx0 freq0 service) = true →
        pkShared.environment = fenvShared.registryEnv ∧
        pkShared.tenant = ctx0.targetDomainProject) ∧
      (fenvShared.isShared (buildProviderKey ctx0 freq0 service) = false →
        pkShared.tenant = parseDomainProject ctx0 ∧
        pkShared.environment = service.environment) :=
  ⟨by decide, find_shared_provider_environment fenvShared ctx0 freq0 pkShared (by decide)⟩

end SC
